import Mathlib

/-!
Verification of the arrutil slice/array utilities (src/src/lib.rs).

The crate exposes seven macro-generated functions over Rust slices:
`slice_to_array`, `slice_to_array_mut`, `slice_to_array_unchecked`,
`slice_to_array_mut_unchecked`, `split_to_array`, `split_to_array_mut`
and `split_to_array_scan`.  A Rust slice `&[T]` is a fat pointer: a start
address together with a length, viewing a contiguous run of elements.
We embed a slice as its start address (measured in elements from the base
of whatever buffer it points into) together with the list of elements it
views; the Rust `len()` is the length of that list.
-/

/-- A Rust slice `&[T]` / `&mut [T]`: a start address (in elements) together
with the contiguous run of elements it views.  `Slice.len = data.length`
models `<[T]>::len`. -/
structure Slice (α : Type) where
  start : Nat
  data : List α
deriving DecidableEq, Repr

namespace Arrutil

variable {α : Type}

/-- `slice.len()` of the embedded slice. -/
def Slice.len (s : Slice α) : Nat :=
  s.data.length

/-- The documented precondition of the unchecked reinterpretation
primitives: `source.len() >= N` (lib.rs states it is caller-enforced,
never verified by the primitive itself). -/
def unchecked_pre (source : Slice α) (n : Nat) : Prop :=
  n ≤ source.data.length

/-- `slice_to_array_unchecked!` (lib.rs lines 104-113):
`&*(source.as_ptr() as *const [T; N])` reinterprets the start address of
`source` as a pointer to `[T; N]`, with no bounds check.  Under its
precondition `unchecked_pre source n` the produced view holds exactly the
first `n` elements of `source` at the same start address, which is what
`List.take` gives; when the precondition is violated the real code reads
out of bounds (undefined behavior), a state this embedding cannot reach
through the checked entry points (see the C6 theorem). -/
def slice_to_array_unchecked (source : Slice α) (n : Nat) : Slice α :=
  ⟨source.start, source.data.take n⟩

/-- `slice_to_array_mut_unchecked!` (lib.rs lines 134-143):
`&mut *(source.as_ptr() as *mut [T; N])`, the exclusive-write twin of
`slice_to_array_unchecked!`, embedded by the same reinterpretation. -/
def slice_to_array_mut_unchecked (source : Slice α) (n : Nat) : Slice α :=
  ⟨source.start, source.data.take n⟩

/-- `slice_to_array!` (lib.rs lines 33-48): if `source.len() < N` return
`None`, else `Some(unsafe { slice_to_array_unchecked!(source, N) })`. -/
def slice_to_array (source : Slice α) (n : Nat) : Option (Slice α) :=
  if source.data.length < n then
    none
  else
    some (slice_to_array_unchecked source n)

/-- `slice_to_array_mut!` (lib.rs lines 68-83): identical guard, delegating
to `slice_to_array_mut_unchecked!`. -/
def slice_to_array_mut (source : Slice α) (n : Nat) : Option (Slice α) :=
  if source.data.length < n then
    none
  else
    some (slice_to_array_mut_unchecked source n)

/-- Rust `<[T]>::split_at(n)`: the pair of the first `n` elements (at the
original start address) and the rest (start address advanced by `n`).
The real method panics when `n > len`; every call in this crate is guarded
by `len < n` failing first, so the clamping total model is only ever used
inside its domain. -/
def Slice.split_at (source : Slice α) (n : Nat) : Slice α × Slice α :=
  (⟨source.start, source.data.take n⟩, ⟨source.start + n, source.data.drop n⟩)

/-- Rust `<[T]>::split_at_mut(n)`, same address arithmetic as `split_at`. -/
def Slice.split_at_mut (source : Slice α) (n : Nat) : Slice α × Slice α :=
  (⟨source.start, source.data.take n⟩, ⟨source.start + n, source.data.drop n⟩)

/-- `split_to_array!` (lib.rs lines 164-177): if `source.len() < N` return
`None`, else `let (arr, new_source) = source.split_at(N)` and return
`Some((unsafe { slice_to_array_unchecked!(arr, N) }, new_source))`. -/
def split_to_array (source : Slice α) (n : Nat) : Option (Slice α × Slice α) :=
  if source.data.length < n then
    none
  else
    let p := Slice.split_at source n
    some (slice_to_array_unchecked p.1 n, p.2)

/-- `split_to_array_mut!` (lib.rs lines 198-211): the exclusive-write twin,
using `split_at_mut` and `slice_to_array_mut_unchecked!`. -/
def split_to_array_mut (source : Slice α) (n : Nat) : Option (Slice α × Slice α) :=
  if source.data.length < n then
    none
  else
    let p := Slice.split_at_mut source n
    some (slice_to_array_mut_unchecked p.1 n, p.2)

/-- `split_to_array_scan!` (lib.rs lines 235-246): takes `source : &mut &[T]`
(a cursor), runs `split_to_array!(*source, N)` and on success stores the
remainder back into the cursor and returns the consumed array view.  The
mutation of the cursor is embedded by state passing: the result pairs the
returned `Option` with the cursor's value after the call. -/
def split_to_array_scan (source : Slice α) (n : Nat) : Option (Slice α) × Slice α :=
  match split_to_array source n with
  | none => (none, source)
  | some (target, source_new) => (some target, source_new)

/-- Writing `x` at index `i` through a view `v` stores into the underlying
buffer at element offset `v.start + i`: Rust's `v[i] = x` on a slice or
array reference, seen from the buffer the view aliases. -/
def writeThrough (buf : List α) (v : Slice α) (i : Nat) (x : α) : List α :=
  buf.set (v.start + i) x

end Arrutil

namespace Arrutil

/-- Claim C1: for every slice of length L and every size N, the four checked
operations return some result iff L >= N and none iff L < N; in particular
both L = N and L > N succeed. -/
theorem C1_length_boundary {α : Type} (source : Slice α) (n : Nat) :
    ((slice_to_array source n).isSome ↔ n ≤ source.data.length) ∧
    (slice_to_array source n = none ↔ source.data.length < n) ∧
    ((slice_to_array_mut source n).isSome ↔ n ≤ source.data.length) ∧
    (slice_to_array_mut source n = none ↔ source.data.length < n) ∧
    ((split_to_array source n).isSome ↔ n ≤ source.data.length) ∧
    (split_to_array source n = none ↔ source.data.length < n) ∧
    ((split_to_array_mut source n).isSome ↔ n ≤ source.data.length) ∧
    (split_to_array_mut source n = none ↔ source.data.length < n) := by
  unfold slice_to_array slice_to_array_mut split_to_array split_to_array_mut
  by_cases h : source.data.length < n <;> simp [h] <;> omega

/-- Claim C3: every successful checked convert returns a fixed view of length
exactly N whose elements are, in order, the first N elements of the source
(trailing elements are not represented); likewise for the mut variant. -/
theorem C3_convert_first_n {α : Type} (source : Slice α) (n : Nat)
    (fixed : Slice α) (h : slice_to_array source n = some fixed) :
    fixed.data.length = n ∧
    fixed.data = source.data.take n ∧
    fixed.start = source.start ∧
    slice_to_array_mut source n = some fixed := by
  unfold slice_to_array slice_to_array_unchecked at h
  unfold slice_to_array_mut slice_to_array_mut_unchecked
  by_cases hlt : source.data.length < n
  · simp [hlt] at h
  · simp only [hlt, if_false, ite_false, Option.some.injEq] at h
    subst h
    refine ⟨?_, rfl, rfl, by simp [hlt]⟩
    simp
    omega

/-- Claim C5: a scanning split on a cursor shorter than N returns none and
leaves the cursor exactly as it was (same start, same length, same value). -/
theorem C5_scan_failure_noop {α : Type} (cursor : Slice α) (n : Nat)
    (h : cursor.data.length < n) :
    split_to_array_scan cursor n = (none, cursor) := by
  unfold split_to_array_scan split_to_array
  simp [h]

/-- Claim C8: sequential scanning splits with sizes 2, 1, 2 on the cursor
[1,2,3,4,5] return [1,2], [3] and [4,5], leaving the cursor [3,4,5], [4,5]
and finally empty, partitioning the buffer in call order. -/
theorem C8_scan_sequence :
    split_to_array_scan (⟨0, [1, 2, 3, 4, 5]⟩ : Slice Nat) 2 =
      (some ⟨0, [1, 2]⟩, ⟨2, [3, 4, 5]⟩) ∧
    split_to_array_scan (⟨2, [3, 4, 5]⟩ : Slice Nat) 1 =
      (some ⟨2, [3]⟩, ⟨3, [4, 5]⟩) ∧
    split_to_array_scan (⟨3, [4, 5]⟩ : Slice Nat) 2 =
      (some ⟨3, [4, 5]⟩, ⟨5, []⟩) := by
  exact ⟨by decide, by decide, by decide⟩

/-- Claim C9: with N = 0 every operation succeeds on every slice, including
the empty one: the checked converts return a zero-length view, the splits
pair it with a remainder equal to the whole original slice, and the scan
returns some while leaving the cursor unchanged. -/
theorem C9_size_zero {α : Type} (source : Slice α) :
    slice_to_array source 0 = some ⟨source.start, []⟩ ∧
    slice_to_array_mut source 0 = some ⟨source.start, []⟩ ∧
    split_to_array source 0 = some (⟨source.start, []⟩, source) ∧
    split_to_array_mut source 0 = some (⟨source.start, []⟩, source) ∧
    split_to_array_scan source 0 = (some ⟨source.start, []⟩, source) := by
  unfold split_to_array_scan
  unfold slice_to_array slice_to_array_mut split_to_array split_to_array_mut
  unfold slice_to_array_unchecked slice_to_array_mut_unchecked
  unfold Slice.split_at Slice.split_at_mut
  simp

end Arrutil

namespace Arrutil

/-- Claim C2: every successful checked split (read-only and mut variants
agree) yields a fixed view of length exactly N and a remainder of length
L - N; the fixed view followed by the remainder is element-wise the original
slice, and their address ranges are adjacent (remainder starts exactly where
the fixed view ends), so the two parts partition the source with no gap and
no overlap. -/
theorem C2_partition {α : Type} (source : Slice α) (n : Nat)
    (fixed rem : Slice α) (h : split_to_array source n = some (fixed, rem)) :
    fixed.data.length = n ∧
    rem.data.length = source.data.length - n ∧
    fixed.data ++ rem.data = source.data ∧
    fixed.start = source.start ∧
    rem.start = fixed.start + n ∧
    split_to_array_mut source n = some (fixed, rem) := by
  unfold split_to_array Slice.split_at slice_to_array_unchecked at h
  unfold split_to_array_mut Slice.split_at_mut slice_to_array_mut_unchecked
  by_cases hlt : source.data.length < n
  · simp [hlt] at h
  · simp only [hlt, if_false, ite_false, Option.some.injEq, Prod.mk.injEq] at h
    obtain ⟨hf, hr⟩ := h
    subst hf
    subst hr
    simp only [hlt, if_false, ite_false, List.take_take, Nat.min_self,
      List.take_append_drop, List.length_take, List.length_drop]
    exact ⟨by omega, trivial, trivial, trivial, trivial, trivial⟩

/-- Claim C4: a scanning split on a cursor of length L >= N returns some
fixed view holding the first N elements of the old cursor value (at the old
start address), and the cursor afterwards is the remainder: start advanced
by N, contents the old elements from index N on, length L - N. -/
theorem C4_scan_advance {α : Type} (cursor : Slice α) (n : Nat)
    (h : n ≤ cursor.data.length) :
    split_to_array_scan cursor n =
      (some ⟨cursor.start, cursor.data.take n⟩,
        ⟨cursor.start + n, cursor.data.drop n⟩) ∧
    (cursor.data.take n).length = n ∧
    (cursor.data.drop n).length = cursor.data.length - n := by
  unfold split_to_array_scan split_to_array Slice.split_at slice_to_array_unchecked
  have hlt : ¬ cursor.data.length < n := Nat.not_lt.mpr h
  simp only [hlt, if_false, ite_false, List.take_take, Nat.min_self,
    List.length_take, List.length_drop]
  exact ⟨trivial, by omega, trivial⟩

/-- Claim C6: whenever a checked operation reaches its unchecked call (the
length guard did not fail), the slice it hands to the unchecked reinterpret
satisfies the documented precondition length >= N — for `slice_to_array` and
`slice_to_array_mut` the argument is `source` itself, for `split_to_array`
and `split_to_array_mut` it is the first half of `split_at` — and the
reinterpretation therefore covers exactly N in-bounds elements, so the
out-of-bounds branch is unreachable through the checked entry points. -/
theorem C6_unchecked_call_sites {α : Type} (source : Slice α) (n : Nat)
    (h : ¬ source.data.length < n) :
    unchecked_pre source n ∧
    unchecked_pre (Slice.split_at source n).1 n ∧
    unchecked_pre (Slice.split_at_mut source n).1 n ∧
    (slice_to_array_unchecked source n).data.length = n ∧
    (slice_to_array_mut_unchecked source n).data.length = n ∧
    (slice_to_array_unchecked (Slice.split_at source n).1 n).data.length = n ∧
    (slice_to_array_mut_unchecked (Slice.split_at_mut source n).1 n).data.length = n := by
  unfold unchecked_pre Slice.split_at Slice.split_at_mut
  unfold slice_to_array_unchecked slice_to_array_mut_unchecked
  simp only [List.length_take, List.take_take, Nat.min_self]
  omega

/-- Claim C7: for a buffer viewed whole, every successful exclusive-write
checked operation gives views that alias the buffer: writing index i through
the fixed view returned by the checked convert, or through the fixed
component of the checked split, writes the buffer at offset i, and writing
index j through the split's remainder writes the buffer at offset N + j,
whatever the buffer holds at that moment (the claim quantifies the buffer
state of each write). -/
theorem C7_mutation_visibility {α : Type} (buf : List α) (n : Nat)
    (fixedc fixed rem : Slice α)
    (hc : slice_to_array_mut ⟨0, buf⟩ n = some fixedc)
    (h : split_to_array_mut ⟨0, buf⟩ n = some (fixed, rem)) :
    (∀ (b : List α) (i : Nat) (x : α), writeThrough b fixedc i x = b.set i x) ∧
    (∀ (b : List α) (i : Nat) (x : α), writeThrough b fixed i x = b.set i x) ∧
    (∀ (b : List α) (j : Nat) (x : α), writeThrough b rem j x = b.set (n + j) x) := by
  unfold slice_to_array_mut slice_to_array_mut_unchecked at hc
  unfold split_to_array_mut Slice.split_at_mut slice_to_array_mut_unchecked at h
  by_cases hlt : buf.length < n
  · simp [hlt] at h
  · simp only [hlt, if_false, ite_false, Option.some.injEq, Prod.mk.injEq] at hc h
    obtain ⟨hf, hr⟩ := h
    subst hc
    subst hf
    subst hr
    unfold writeThrough
    simp

/-- Claim C10: checked convert and checked split agree: for every slice and
every size N they succeed on exactly the same inputs, and when both succeed
the fixed view of the convert equals the fixed component of the split (in
particular element-wise). -/
theorem C10_convert_split_agree {α : Type} (source : Slice α) (n : Nat) :
    ((slice_to_array source n).isSome ↔ (split_to_array source n).isSome) ∧
    (∀ fixed2 fixed rem : Slice α,
      slice_to_array source n = some fixed2 →
      split_to_array source n = some (fixed, rem) →
      fixed2 = fixed ∧ fixed2.data = fixed.data) := by
  unfold slice_to_array split_to_array Slice.split_at slice_to_array_unchecked
  by_cases hlt : source.data.length < n
  · simp [hlt]
  · simp only [hlt, if_false, ite_false, Option.isSome_some, Option.some.injEq,
      Prod.mk.injEq, List.take_take, Nat.min_self]
    refine ⟨trivial, ?_⟩
    rintro fixed2 fixed rem rfl ⟨rfl, rfl⟩
    exact ⟨rfl, rfl⟩

end Arrutil

namespace Arrutil

/-- Witness for C2 at the buffer [1,2,3,4,5] with N = 3, the split of the
crate's own test. -/
theorem C2_partition_witness :
    split_to_array (⟨0, [1, 2, 3, 4, 5]⟩ : Slice Nat) 3 =
      some (⟨0, [1, 2, 3]⟩, ⟨3, [4, 5]⟩) ∧
    (⟨0, [1, 2, 3]⟩ : Slice Nat).data.length = 3 ∧
    (⟨3, [4, 5]⟩ : Slice Nat).data.length = ([1, 2, 3, 4, 5] : List Nat).length - 3 ∧
    (⟨0, [1, 2, 3]⟩ : Slice Nat).data ++ (⟨3, [4, 5]⟩ : Slice Nat).data = [1, 2, 3, 4, 5] ∧
    (⟨3, [4, 5]⟩ : Slice Nat).start = (⟨0, [1, 2, 3]⟩ : Slice Nat).start + 3 := by
  have hs : split_to_array (⟨0, [1, 2, 3, 4, 5]⟩ : Slice Nat) 3 =
      some (⟨0, [1, 2, 3]⟩, ⟨3, [4, 5]⟩) := by decide
  have h := C2_partition (⟨0, [1, 2, 3, 4, 5]⟩ : Slice Nat) 3 ⟨0, [1, 2, 3]⟩ ⟨3, [4, 5]⟩ hs
  exact ⟨hs, h.1, h.2.1, h.2.2.1, h.2.2.2.2.1⟩

/-- Witness for C3 at the buffer [1..10] with N = 5, a case of the crate's
own test. -/
theorem C3_convert_first_n_witness :
    slice_to_array (⟨0, [1, 2, 3, 4, 5, 6, 7, 8, 9, 10]⟩ : Slice Nat) 5 =
      some ⟨0, [1, 2, 3, 4, 5]⟩ ∧
    (⟨0, [1, 2, 3, 4, 5]⟩ : Slice Nat).data.length = 5 ∧
    (⟨0, [1, 2, 3, 4, 5]⟩ : Slice Nat).data =
      ([1, 2, 3, 4, 5, 6, 7, 8, 9, 10] : List Nat).take 5 := by
  have hs : slice_to_array (⟨0, [1, 2, 3, 4, 5, 6, 7, 8, 9, 10]⟩ : Slice Nat) 5 =
      some ⟨0, [1, 2, 3, 4, 5]⟩ := by decide
  have h := C3_convert_first_n (⟨0, [1, 2, 3, 4, 5, 6, 7, 8, 9, 10]⟩ : Slice Nat) 5
    ⟨0, [1, 2, 3, 4, 5]⟩ hs
  exact ⟨hs, h.1, h.2.1⟩

/-- Witness for C4 at the cursor [1,2,3,4,5] with N = 2: the first step of
the crate's scan test. -/
theorem C4_scan_advance_witness :
    2 ≤ ([1, 2, 3, 4, 5] : List Nat).length ∧
    split_to_array_scan (⟨0, [1, 2, 3, 4, 5]⟩ : Slice Nat) 2 =
      (some ⟨0, ([1, 2, 3, 4, 5] : List Nat).take 2⟩,
        ⟨0 + 2, ([1, 2, 3, 4, 5] : List Nat).drop 2⟩) :=
  ⟨by decide, (C4_scan_advance (⟨0, [1, 2, 3, 4, 5]⟩ : Slice Nat) 2 (by decide)).1⟩

/-- Witness for C5 at a cursor of length 5 with N = 6. -/
theorem C5_scan_failure_noop_witness :
    ([1, 2, 3, 4, 5] : List Nat).length < 6 ∧
    split_to_array_scan (⟨0, [1, 2, 3, 4, 5]⟩ : Slice Nat) 6 =
      (none, ⟨0, [1, 2, 3, 4, 5]⟩) :=
  ⟨by decide, C5_scan_failure_noop (⟨0, [1, 2, 3, 4, 5]⟩ : Slice Nat) 6 (by decide)⟩

/-- Witness for C6 at the slice [1,2,3] with N = 2. -/
theorem C6_unchecked_call_sites_witness :
    ¬ ([1, 2, 3] : List Nat).length < 2 ∧
    (unchecked_pre (⟨0, [1, 2, 3]⟩ : Slice Nat) 2 ∧
      unchecked_pre (Slice.split_at (⟨0, [1, 2, 3]⟩ : Slice Nat) 2).1 2 ∧
      unchecked_pre (Slice.split_at_mut (⟨0, [1, 2, 3]⟩ : Slice Nat) 2).1 2 ∧
      (slice_to_array_unchecked (⟨0, [1, 2, 3]⟩ : Slice Nat) 2).data.length = 2 ∧
      (slice_to_array_mut_unchecked (⟨0, [1, 2, 3]⟩ : Slice Nat) 2).data.length = 2 ∧
      (slice_to_array_unchecked
        (Slice.split_at (⟨0, [1, 2, 3]⟩ : Slice Nat) 2).1 2).data.length = 2 ∧
      (slice_to_array_mut_unchecked
        (Slice.split_at_mut (⟨0, [1, 2, 3]⟩ : Slice Nat) 2).1 2).data.length = 2) :=
  ⟨by decide, C6_unchecked_call_sites (⟨0, [1, 2, 3]⟩ : Slice Nat) 2 (by decide)⟩

/-- Witness for C7 at the buffer [1,2,3,4,5] with N = 3: the exclusive-write
convert and split both succeed; writing 100 at index 1 of the convert's view
yields [1,100,3,4,5], and writing 100 at fixed index 1 then 200 at remainder
index 1 of the split's views yields [1,100,3,4,200], the crate's own
mutation tests. -/
theorem C7_mutation_visibility_witness :
    slice_to_array_mut (⟨0, [1, 2, 3, 4, 5]⟩ : Slice Nat) 3 = some ⟨0, [1, 2, 3]⟩ ∧
    split_to_array_mut (⟨0, [1, 2, 3, 4, 5]⟩ : Slice Nat) 3 =
      some (⟨0, [1, 2, 3]⟩, ⟨3, [4, 5]⟩) ∧
    writeThrough [1, 2, 3, 4, 5] (⟨0, [1, 2, 3]⟩ : Slice Nat) 1 100 = [1, 100, 3, 4, 5] ∧
    writeThrough (writeThrough [1, 2, 3, 4, 5] (⟨0, [1, 2, 3]⟩ : Slice Nat) 1 100)
      (⟨3, [4, 5]⟩ : Slice Nat) 1 200 = [1, 100, 3, 4, 200] := by
  have hc : slice_to_array_mut (⟨0, [1, 2, 3, 4, 5]⟩ : Slice Nat) 3 =
      some ⟨0, [1, 2, 3]⟩ := by decide
  have hs : split_to_array_mut (⟨0, [1, 2, 3, 4, 5]⟩ : Slice Nat) 3 =
      some (⟨0, [1, 2, 3]⟩, ⟨3, [4, 5]⟩) := by decide
  have h := C7_mutation_visibility [1, 2, 3, 4, 5] 3 ⟨0, [1, 2, 3]⟩ ⟨0, [1, 2, 3]⟩
    ⟨3, [4, 5]⟩ hc hs
  refine ⟨hc, hs, ?_, ?_⟩
  · rw [h.1]
    decide
  · rw [h.2.1, h.2.2]
    decide

/-- Witness for C10 at the slice [1,2,3] with N = 2: both operations succeed
and return the same fixed view. -/
theorem C10_convert_split_agree_witness :
    slice_to_array (⟨0, [1, 2, 3]⟩ : Slice Nat) 2 = some ⟨0, [1, 2]⟩ ∧
    split_to_array (⟨0, [1, 2, 3]⟩ : Slice Nat) 2 = some (⟨0, [1, 2]⟩, ⟨2, [3]⟩) ∧
    (⟨0, [1, 2]⟩ : Slice Nat) = ⟨0, [1, 2]⟩ ∧
    (⟨0, [1, 2]⟩ : Slice Nat).data = (⟨0, [1, 2]⟩ : Slice Nat).data := by
  have h1 : slice_to_array (⟨0, [1, 2, 3]⟩ : Slice Nat) 2 = some ⟨0, [1, 2]⟩ := by decide
  have h2 : split_to_array (⟨0, [1, 2, 3]⟩ : Slice Nat) 2 =
      some (⟨0, [1, 2]⟩, ⟨2, [3]⟩) := by decide
  have h := (C10_convert_split_agree (⟨0, [1, 2, 3]⟩ : Slice Nat) 2).2 _ _ _ h1 h2
  exact ⟨h1, h2, h.1, h.2⟩

end Arrutil
